import Mathlib

/-!
Verification of the research-orchestration engine of the Deep Research Agent
backend (`backend/state.py`, `backend/nodes.py`, `backend/workflow.py`,
`backend/config.py`, `backend/api.py`).

The pipeline is a cyclic LangGraph workflow over a typed state dictionary.
State channels annotated `Annotated[List[...], add]` in `state.py` are
*accumulating* channels: when a node returns a value for such a key, LangGraph
combines it with the current value using `operator.add` (list concatenation).
This is the mechanism that makes the parallel `web_search` fan-in work (each
task returns a one-element list and the lists are concatenated), and it applies
to every node's return value, including `aggregate_search_results`.

Model-call outcomes (the LLM requests in the nodes) are represented by small
sum types: an exception raised by the call, an unparseable response (which in
the source also covers a response whose extracted JSON is not an object, since
`parsed.get` on a non-dict raises `AttributeError`, caught by the same inner
handler), or a parsed JSON object.  The URL-extraction regex of
`search_utils.extract_urls_from_text` is abstracted: a successful search
outcome carries the URL list the regex would produce.  Wall-clock timestamps
(`datetime.now()` fragments of record ids and timestamps) are abstracted to
fixed strings; no property below depends on them.
-/

/-- JSON values, as produced by `json.loads` in the source.  Objects keep their
fields in order; `lookupField` models Python's `dict.get` / `in` test. -/
inductive JsonVal where
  | str (s : String)
  | num (n : Int)
  | bool (b : Bool)
  | arr (xs : List JsonVal)
  | obj (fields : List (String × JsonVal))

/-- Field lookup in a parsed JSON object (Python `parsed.get(key)`). -/
def lookupField (fields : List (String × JsonVal)) (key : String) : Option JsonVal :=
  (fields.find? (fun p => p.1 = key)).map (·.2)

/-- Python truthiness of a JSON value, as applied by `if is_sufficient` and
`if not rationale` in `nodes.py`. -/
def pyTruthy : JsonVal → Bool
  | JsonVal.str s => s != ""
  | JsonVal.num n => n != 0
  | JsonVal.bool b => b
  | JsonVal.arr xs => !xs.isEmpty
  | JsonVal.obj fs => !fs.isEmpty

/-- String content of a JSON value.  The source code stores parsed values
without type validation; the only claim-relevant case is `str`. -/
def jsonToString : JsonVal → String
  | JsonVal.str s => s
  | JsonVal.num n => toString n
  | JsonVal.bool b => if b then "True" else "False"
  | JsonVal.arr _ => ""
  | JsonVal.obj _ => ""

/-- A JSON value read as a list of strings (`query_list`, `follow_up_queries`).
The source performs no type validation; non-array values are a dynamically
typed corner no claim depends on, modelled as the empty list. -/
def pyStrList : JsonVal → List String
  | JsonVal.arr xs => xs.map jsonToString
  | _ => []

/-- Python's `isinstance(v, list) and len(v) > 0 and all(isinstance(q, str) for q in v)`
test used at `nodes.py:81` when scanning parsed fields for a query list. -/
def isNonemptyStrList : JsonVal → Bool
  | JsonVal.arr xs => !xs.isEmpty && xs.all (fun v => match v with | JsonVal.str _ => true | _ => false)
  | _ => false

/-- `backend/state.py` `SearchResult` (one Evidence Record).
`relevance_score` is a Python float holding only the literals `0.9` and `0.0`
in the source; it is modelled as a rational. -/
structure SearchResult where
  id : String
  query : String
  summary : String
  sources : List String
  task_id : String
  relevance_score : Rat
  timestamp : String
deriving DecidableEq, Repr

/-- Research summary produced by `answer_generation_node`
(`completion_time` is wall clock and omitted). -/
inductive ResearchSummary where
  | empty
  | stats (total_queries total_search_results total_sources research_loops : Nat)
  | failed (err : String)
deriving DecidableEq, Repr

/-- `backend/state.py` `OverallState`.  `messages` holds the message contents;
`timeline_updates` and `warnings` are never written by any node of the
pipeline and are omitted. -/
structure OverallState where
  messages : List String
  original_question : String
  query_list : List String
  rationale : String
  search_results : List SearchResult
  sources_gathered : List String
  is_sufficient : Bool
  knowledge_gap : String
  follow_up_queries : List String
  research_loop_count : Nat
  total_queries_run : Nat
  final_answer : String
  citations : List String
  research_summary : ResearchSummary
  current_phase : String
  errors : List String
deriving DecidableEq, Repr

/-- `backend/state.py` `WebSearchState`: the per-task state constructed by
`Send` in `_route_to_parallel_searches`. -/
structure WebSearchState where
  query : String
  task_id : String
  original_question : String
  is_followup : Bool
deriving DecidableEq, Repr

/-- A node's return value (a partial state update).  Fields whose channel in
`OverallState` is `Annotated[List, add]` (`search_results`, `sources_gathered`,
`citations`, `errors`) are lists that LangGraph concatenates onto the current
value; all other fields replace the current value when present. -/
structure NodeUpdate where
  messages : Option (List String) := none
  original_question : Option String := none
  query_list : Option (List String) := none
  rationale : Option String := none
  search_results : List SearchResult := []
  sources_gathered : List String := []
  is_sufficient : Option Bool := none
  knowledge_gap : Option String := none
  follow_up_queries : Option (List String) := none
  research_loop_count : Option Nat := none
  total_queries_run : Option Nat := none
  final_answer : Option String := none
  citations : List String := []
  research_summary : Option ResearchSummary := none
  current_phase : Option String := none
  errors : List String := []
deriving DecidableEq, Repr

/-- LangGraph's application of a node's return value to the state: `add`
channels concatenate, plain channels replace when the key is present. -/
def applyUpdate (s : OverallState) (u : NodeUpdate) : OverallState :=
  { messages := u.messages.getD s.messages
    original_question := u.original_question.getD s.original_question
    query_list := u.query_list.getD s.query_list
    rationale := u.rationale.getD s.rationale
    search_results := s.search_results ++ u.search_results
    sources_gathered := s.sources_gathered ++ u.sources_gathered
    is_sufficient := u.is_sufficient.getD s.is_sufficient
    knowledge_gap := u.knowledge_gap.getD s.knowledge_gap
    follow_up_queries := u.follow_up_queries.getD s.follow_up_queries
    research_loop_count := u.research_loop_count.getD s.research_loop_count
    total_queries_run := u.total_queries_run.getD s.total_queries_run
    final_answer := u.final_answer.getD s.final_answer
    citations := s.citations ++ u.citations
    research_summary := u.research_summary.getD s.research_summary
    current_phase := u.current_phase.getD s.current_phase
    errors := s.errors ++ u.errors }

/-- `backend/config.py` `ResearchAgentConfig.initial_queries_count` default. -/
def initialQueriesCount : Nat := 3

/-- `backend/config.py` `ResearchAgentConfig.max_research_loops` default. -/
def maxResearchLoops : Nat := 2

/-- Python `str.strip()`: drop leading and trailing whitespace (used by
`config.validate` and the endpoint's blank-question check). -/
def pyStrip (s : String) : String :=
  String.mk (((s.data.dropWhile Char.isWhitespace).reverse.dropWhile
    Char.isWhitespace).reverse)

/-- `backend/config.py` `ResearchAgentConfig`: the fields consulted by
`validate` (the numeric research parameters are the constants above). -/
structure ResearchAgentConfig where
  demo_mode : Bool
  google_ai_api_key : String
deriving DecidableEq, Repr

/-- `ResearchAgentConfig.validate` (`config.py:46-50`): demo mode passes,
otherwise the API key must be non-blank. -/
def ResearchAgentConfig.validate (c : ResearchAgentConfig) : Bool :=
  if c.demo_mode then true else pyStrip c.google_ai_api_key ≠ ""

/-- The global `config` instance with unset environment variables
(`DEMO_MODE` defaults to `"false"`, `GOOGLE_AI_API_KEY` to `""`). -/
def defaultConfig : ResearchAgentConfig :=
  { demo_mode := false, google_ai_api_key := "" }

/-- Outcome of the query-generation model call in `generate_queries_node`:
the call raised, the response was unparseable (no JSON object could be
extracted), or a JSON object was parsed. -/
inductive QueryGenModelResult where
  | failure (err : String)
  | unparseable
  | parsed (fields : List (String × JsonVal))

/-- Outcome of one web-search model call in `web_search_node`: the response
content together with the URLs `extract_urls_from_text` finds in it, or the
raised error. -/
inductive SearchOutcome where
  | ok (content : String) (urls : List String)
  | error (msg : String)
deriving DecidableEq, Repr

/-- Outcome of the reflection model call in `reflection_node`. -/
inductive ReflectModelResult where
  | failure (err : String)
  | unparseable
  | parsed (fields : List (String × JsonVal))

/-- Outcome of the answer-synthesis model call in `answer_generation_node`. -/
inductive AnswerModelResult where
  | failure (err : String)
  | ok (content : String)
deriving DecidableEq, Repr

/-- Question extraction at `nodes.py:50-52`: `original_question`, falling back
to the first message's content when empty. -/
def extractQuestion (s : OverallState) : String :=
  if s.original_question = "" then
    match s.messages with
    | [] => ""
    | m :: _ => m
  else s.original_question

/-- The deterministic fallback queries of `generate_queries_node`
(`nodes.py:85` and `nodes.py:100`). -/
def fallbackQueries (question : String) : List String :=
  [question ++ " research", question ++ " analysis", question ++ " facts"]

/-- Query extraction from a parsed response (`nodes.py:76-85`): the `queries`
field if present, else the first field holding a non-empty list of strings,
else the templated fallback. -/
def queriesFromParsed (question : String) (fields : List (String × JsonVal)) : List String :=
  match lookupField fields "queries" with
  | some v => pyStrList v
  | none =>
    match fields.find? (fun p => isNonemptyStrList p.2) with
    | some p => pyStrList p.2
    | none => fallbackQueries question

/-- Rationale extraction (`nodes.py:88-96`): `rationale`, else the first of
`thought`/`thoughts`/`reasoning`/`explanation` (the final `elif` at
`nodes.py:95` is unreachable in the source and contributes nothing). -/
def rationaleFromParsed (fields : List (String × JsonVal)) : String :=
  match lookupField fields "rationale" with
  | some v =>
    if pyTruthy v then jsonToString v else
      match (lookupField fields "thought").orElse
            (fun _ => (lookupField fields "thoughts").orElse
            (fun _ => (lookupField fields "reasoning").orElse
            (fun _ => lookupField fields "explanation"))) with
      | some w => jsonToString w
      | none => jsonToString v
  | none =>
    match (lookupField fields "thought").orElse
          (fun _ => (lookupField fields "thoughts").orElse
          (fun _ => (lookupField fields "reasoning").orElse
          (fun _ => lookupField fields "explanation"))) with
    | some w => jsonToString w
    | none => ""

/-- `generate_queries_node` (`nodes.py:44-122`).  On a parsed or unparseable
response the queries are truncated to `initial_queries_count` and the phase
advances to `search_web`; when the model call itself raises, the node returns
the error, the single-query fallback `[question]`, and no phase change. -/
def generate_queries_node (s : OverallState) (r : QueryGenModelResult) : NodeUpdate :=
  let question := extractQuestion s
  match r with
  | QueryGenModelResult.failure e =>
    { errors := ["Query generation failed: " ++ e]
      query_list := some [question]
      rationale := some "Fallback to original question due to error"
      original_question := some question }
  | QueryGenModelResult.unparseable =>
    { query_list := some ((fallbackQueries question).take initialQueriesCount)
      rationale := some "Generated basic research queries"
      original_question := some question
      current_phase := some "search_web" }
  | QueryGenModelResult.parsed fields =>
    { query_list := some ((queriesFromParsed question fields).take initialQueriesCount)
      rationale := some (rationaleFromParsed fields)
      original_question := some question
      current_phase := some "search_web" }

/-- `web_search_node` (`nodes.py:124-244`).  Always returns exactly one
Evidence Record; an error becomes a record with relevance 0.0, empty sources
and the error text as summary, plus one `errors` entry. -/
def web_search_node (ws : WebSearchState) (outcome : SearchOutcome) : NodeUpdate :=
  let query := if ws.query = "" then "General research query" else ws.query
  match outcome with
  | SearchOutcome.ok content urls =>
    { search_results := [{ id := "search-" ++ ws.task_id
                           query := query
                           summary := content
                           sources := urls
                           task_id := ws.task_id
                           relevance_score := (9 : Rat) / 10
                           timestamp := "" }]
      sources_gathered := urls }
  | SearchOutcome.error e =>
    { search_results := [{ id := "error-" ++ ws.task_id
                           query := query
                           summary := e
                           sources := []
                           task_id := ws.task_id
                           relevance_score := 0
                           timestamp := "" }]
      sources_gathered := []
      errors := ["Web search failed: " ++ e] }

/-- `aggregate_search_results` (`nodes.py:246-288`).  Every element of the
typed `search_results` channel is a record, so the flattening loop is the
identity; the source loop (`nodes.py:265-270`) builds a Python `set` of the
gathered source strings — `List.dedup` models it (set iteration order is
unspecified in the source; only the underlying set matters below).  The
returned lists pass through the `add` channels of `OverallState`. -/
def aggregate_search_results (s : OverallState) : NodeUpdate :=
  let flattened := s.search_results
  let all_sources := s.sources_gathered.dedup
  { search_results := flattened
    sources_gathered := all_sources
    total_queries_run := some (s.total_queries_run + flattened.length)
    current_phase := some "reflection" }

/-- `reflection_node` (`nodes.py:290-363`).  A parsed response is read with
sufficient-by-default semantics (`parsed.get("is_sufficient", True)`);
an unparseable response takes the conservative fallback *without* touching
`errors`; only a raising model call appends to `errors`. -/
def reflection_node (s : OverallState) (r : ReflectModelResult) : NodeUpdate :=
  match r with
  | ReflectModelResult.failure e =>
    { is_sufficient := some true
      knowledge_gap := some ("Reflection error: " ++ e)
      follow_up_queries := some []
      research_loop_count := some (s.research_loop_count + 1)
      current_phase := some "generating_answer"
      errors := ["Reflection failed: " ++ e] }
  | ReflectModelResult.unparseable =>
    { is_sufficient := some true
      knowledge_gap := some ""
      follow_up_queries := some []
      research_loop_count := some (s.research_loop_count + 1)
      current_phase := some "generating_answer" }
  | ReflectModelResult.parsed fields =>
    let isSuff := match lookupField fields "is_sufficient" with
      | some v => pyTruthy v
      | none => true
    let gap := match lookupField fields "knowledge_gaps" with
      | some v => jsonToString v
      | none =>
        match lookupField fields "knowledge_gap" with
        | some v => jsonToString v
        | none => ""
    let followUps := match lookupField fields "follow_up_queries" with
      | some v => pyStrList v
      | none => []
    { is_sufficient := some isSuff
      knowledge_gap := some gap
      follow_up_queries := some followUps
      research_loop_count := some (s.research_loop_count + 1)
      current_phase := some (if isSuff then "generating_answer" else "search_web") }

/-- Citation extraction of `answer_generation_node` (`nodes.py:390-399`).
Records produced by `web_search_node` carry no `citations` or `url` keys, so
only the `sources` branch of the source's key dispatch is live: each record
with a non-empty source list contributes its sources. -/
def extractCitations (results : List SearchResult) : List String :=
  results.foldl (fun acc r => if r.sources.isEmpty then acc else acc ++ r.sources) []

/-- Duplicate removal with first-seen order (`nodes.py:402-407`); the
`if citation and ...` test also drops empty strings. -/
def dedupCitations (l : List String) : List String :=
  l.foldl (fun acc c => if c ≠ "" ∧ c ∉ acc then acc ++ [c] else acc) []

/-- `answer_generation_node` (`nodes.py:365-436`). -/
def answer_generation_node (s : OverallState) (r : AnswerModelResult) : NodeUpdate :=
  match r with
  | AnswerModelResult.ok content =>
    let unique_citations := dedupCitations (extractCitations s.search_results)
    { final_answer := some content
      citations := unique_citations
      research_summary := some (ResearchSummary.stats s.query_list.length
        s.search_results.length unique_citations.length s.research_loop_count)
      current_phase := some "completed"
      messages := some [s.original_question, content] }
  | AnswerModelResult.failure e =>
    { final_answer := some ("I apologize, but I encountered an error while generating the final answer: " ++ e)
      citations := []
      research_summary := some (ResearchSummary.failed e)
      current_phase := some "error"
      errors := ["Answer generation failed: " ++ e] }

/-- The model calls a run consumes, indexed by pipeline position: the
`queryGen` and `reflect` outcomes per loop round, the `search` outcome per
(round, task index), and the single answer-synthesis outcome. -/
structure ModelOracle where
  queryGen : Nat → QueryGenModelResult
  search : Nat → Nat → SearchOutcome
  reflect : Nat → ReflectModelResult
  answer : AnswerModelResult

/-- `_route_to_parallel_searches` (`workflow.py:71-94`): one `Send` per query,
follow-up queries taking precedence over the initial query list. -/
def routeToParallelSearches (s : OverallState) : List WebSearchState :=
  let searchQueries := if s.follow_up_queries.isEmpty then s.query_list else s.follow_up_queries
  let taskTag := if s.follow_up_queries.isEmpty then "initial"
    else "followup_" ++ toString s.research_loop_count
  searchQueries.enum.map (fun p =>
    { query := p.2
      task_id := taskTag ++ "_" ++ toString p.1
      original_question := s.original_question
      is_followup := !s.follow_up_queries.isEmpty })

/-- The Search fan-out/fan-in of round `k`: every dispatched task produces one
record and the `add` channels accumulate the task returns. -/
def searchRound (o : ModelOracle) (k : Nat) (s : OverallState) : OverallState :=
  (routeToParallelSearches s).enum.foldl
    (fun st p => applyUpdate st (web_search_node p.2 (o.search k p.1))) s

/-- One application of `aggregate_search_results` through the state channels. -/
def aggStep (s : OverallState) : OverallState :=
  applyUpdate s (aggregate_search_results s)

/-- One application of `reflection_node` at round `k`. -/
def reflectStep (o : ModelOracle) (k : Nat) (s : OverallState) : OverallState :=
  applyUpdate s (reflection_node s (o.reflect k))

/-- One application of `generate_queries_node` at round `k`. -/
def queryGenStep (o : ModelOracle) (k : Nat) (s : OverallState) : OverallState :=
  applyUpdate s (generate_queries_node s (o.queryGen k))

/-- One application of `answer_generation_node`. -/
def answerStep (o : ModelOracle) (s : OverallState) : OverallState :=
  applyUpdate s (answer_generation_node s o.answer)

/-- `_decide_research_complete` (`workflow.py:96-109`): OR of the three stop
conditions routes to answer generation, otherwise loop back to query
generation. -/
def decide_research_complete (s : OverallState) : String :=
  if s.is_sufficient = true ∨ maxResearchLoops ≤ s.research_loop_count ∨
      s.follow_up_queries.length = 0 then
    "answer_generation"
  else
    "generate_queries"

/-- The cyclic part of the compiled graph (`workflow.py:43-67`), entered after
a `generate_queries` invocation: search fan-out/fan-in, aggregate, reflect,
then either answer generation or another round through `generate_queries`.
Returns the final state and the number of reflection rounds executed.
Termination is by the strictly decreasing measure
`maxResearchLoops - research_loop_count`: every reflection increments the
loop counter and the loop continues only while the counter is below
`maxResearchLoops`. -/
def runLoop (o : ModelOracle) (k : Nat) (s : OverallState) : OverallState × Nat :=
  if h : decide_research_complete (reflectStep o k (aggStep (searchRound o k s))) =
      "answer_generation" then
    (answerStep o (reflectStep o k (aggStep (searchRound o k s))), 1)
  else
    let next := runLoop o (k + 1)
      (queryGenStep o (k + 1) (reflectStep o k (aggStep (searchRound o k s))))
    (next.1, next.2 + 1)
termination_by maxResearchLoops - s.research_loop_count
decreasing_by
  have hws : ∀ (p : Nat × WebSearchState) (st : OverallState),
      (applyUpdate st (web_search_node p.2 (o.search k p.1))).research_loop_count =
        st.research_loop_count := by
    intro p st
    cases o.search k p.1 <;> rfl
  have hsr : ∀ (l : List (Nat × WebSearchState)) (st : OverallState),
      (l.foldl (fun st p => applyUpdate st (web_search_node p.2 (o.search k p.1)))
        st).research_loop_count = st.research_loop_count := by
    intro l
    induction l with
    | nil => intro st; rfl
    | cons p t ih =>
      intro st
      rw [List.foldl_cons, ih, hws]
  have hrefl : (reflectStep o k (aggStep (searchRound o k s))).research_loop_count =
      s.research_loop_count + 1 := by
    have hagg : (aggStep (searchRound o k s)).research_loop_count =
        (searchRound o k s).research_loop_count := rfl
    have hsrc : (searchRound o k s).research_loop_count = s.research_loop_count := hsr _ _
    cases hr : o.reflect k <;>
      simp [reflectStep, reflection_node, hr, applyUpdate, hagg, hsrc]
  have hqg : (queryGenStep o (k + 1)
      (reflectStep o k (aggStep (searchRound o k s)))).research_loop_count =
      s.research_loop_count + 1 := by
    rw [← hrefl]
    cases hq : o.queryGen (k + 1) <;>
      simp [queryGenStep, generate_queries_node, hq, applyUpdate]
  have hlt : (reflectStep o k (aggStep (searchRound o k s))).research_loop_count <
      maxResearchLoops := by
    by_contra hge
    push_neg at hge
    exact h (by unfold decide_research_complete; rw [if_pos (Or.inr (Or.inl hge))])
  rw [hrefl] at hlt
  simp only [hqg]
  omega

/-- The initial `OverallState` built by `stream_research`
(`workflow.py:117-136`). -/
def initialState (question : String) : OverallState :=
  { messages := [question]
    original_question := question
    query_list := []
    rationale := ""
    search_results := []
    sources_gathered := []
    is_sufficient := false
    knowledge_gap := ""
    follow_up_queries := []
    research_loop_count := 0
    total_queries_run := 0
    final_answer := ""
    citations := []
    research_summary := ResearchSummary.empty
    current_phase := "generating_queries"
    errors := [] }

/-- A full pipeline run (`START -> generate_queries -> loop`), returning the
final state and the number of reflection rounds. -/
def runPipeline (o : ModelOracle) (question : String) : OverallState × Nat :=
  runLoop o 0 (queryGenStep o 0 (initialState question))

/-- Result of the non-streaming `POST /research` handler. -/
inductive ApiResponse where
  | httpError (statusCode : Nat) (detail : String)
  | result (success : Bool) (final_answer : String) (citations : List String)
      (errors : List String)
deriving DecidableEq, Repr

/-- `research_endpoint` (`api.py:401-436`): reject a blank question with a 400,
otherwise drain the stream and return the terminal `complete` payload with
`success = True`.  No configuration validation happens anywhere on this path —
the handler consults neither `config.validate` nor `config.demo_mode`. -/
def research_endpoint (o : ModelOracle) (question : String) : ApiResponse :=
  if pyStrip question = "" then
    ApiResponse.httpError 400 "Question cannot be empty"
  else
    let final := (runPipeline o question).1
    ApiResponse.result true final.final_answer final.citations final.errors

/-- Success flag of an API response, when it is a result. -/
def apiSuccess : ApiResponse → Option Bool
  | ApiResponse.httpError _ _ => none
  | ApiResponse.result s _ _ _ => some s

/-- An oracle on which every model call fails, as happens when no credentials
are configured (every `get_llm`/`get_openai_client` use raises at request
time). -/
def allFailOracle : ModelOracle :=
  { queryGen := fun _ => QueryGenModelResult.failure "model unavailable"
    search := fun _ _ => SearchOutcome.error "model unavailable"
    reflect := fun _ => ReflectModelResult.failure "model unavailable"
    answer := AnswerModelResult.failure "model unavailable" }

/-- A concrete well-behaved oracle: one parsed query, one successful search
yielding one URL, a sufficient first reflection, a synthesized answer. -/
def okOracle : ModelOracle :=
  { queryGen := fun _ => QueryGenModelResult.parsed
      [("queries", JsonVal.arr [JsonVal.str "q1"]), ("rationale", JsonVal.str "r")]
    search := fun _ _ => SearchOutcome.ok "summary text" ["https://example.com/a"]
    reflect := fun _ => ReflectModelResult.parsed
      [("is_sufficient", JsonVal.bool true), ("follow_up_queries", JsonVal.arr [])]
    answer := AnswerModelResult.ok "final answer text" }

/-! ### Helper lemmas -/

theorem web_search_node_one_record (ws : WebSearchState) (out : SearchOutcome) :
    (web_search_node ws out).search_results.length = 1 := by
  cases out <;> rfl

theorem web_search_node_no_loop (ws : WebSearchState) (out : SearchOutcome) :
    (web_search_node ws out).research_loop_count = none := by
  cases out <;> rfl

theorem web_search_node_no_citations (ws : WebSearchState) (out : SearchOutcome) :
    (web_search_node ws out).citations = [] := by
  cases out <;> rfl

theorem searchFold_facts (o : ModelOracle) (k : Nat) :
    ∀ (l : List (Nat × WebSearchState)) (st : OverallState),
      ((l.foldl (fun st p => applyUpdate st (web_search_node p.2 (o.search k p.1)))
          st).research_loop_count = st.research_loop_count) ∧
      ((l.foldl (fun st p => applyUpdate st (web_search_node p.2 (o.search k p.1)))
          st).citations = st.citations) ∧
      ((l.foldl (fun st p => applyUpdate st (web_search_node p.2 (o.search k p.1)))
          st).search_results.length = st.search_results.length + l.length) := by
  intro l
  induction l with
  | nil => intro st; exact ⟨rfl, rfl, rfl⟩
  | cons p t ih =>
    intro st
    have h1 := (ih (applyUpdate st (web_search_node p.2 (o.search k p.1)))).1
    have h2 := (ih (applyUpdate st (web_search_node p.2 (o.search k p.1)))).2.1
    have h3 := (ih (applyUpdate st (web_search_node p.2 (o.search k p.1)))).2.2
    refine ⟨?_, ?_, ?_⟩
    · rw [List.foldl_cons, h1]
      simp [applyUpdate, web_search_node_no_loop]
    · rw [List.foldl_cons, h2]
      simp [applyUpdate, web_search_node_no_citations]
    · rw [List.foldl_cons, h3]
      simp [applyUpdate, web_search_node_one_record]
      omega

theorem searchRound_loop_count (o : ModelOracle) (k : Nat) (s : OverallState) :
    (searchRound o k s).research_loop_count = s.research_loop_count :=
  (searchFold_facts o k _ s).1

theorem searchRound_citations (o : ModelOracle) (k : Nat) (s : OverallState) :
    (searchRound o k s).citations = s.citations :=
  (searchFold_facts o k _ s).2.1

theorem searchRound_records (o : ModelOracle) (k : Nat) (s : OverallState) :
    (searchRound o k s).search_results.length =
      s.search_results.length + (routeToParallelSearches s).length := by
  have h := (searchFold_facts o k (routeToParallelSearches s).enum s).2.2
  simpa [searchRound, List.enum_length] using h

theorem aggStep_loop_count (s : OverallState) :
    (aggStep s).research_loop_count = s.research_loop_count := rfl

theorem aggStep_citations (s : OverallState) : (aggStep s).citations = s.citations := by
  simp [aggStep, aggregate_search_results, applyUpdate]

theorem aggStep_records (s : OverallState) :
    (aggStep s).search_results = s.search_results ++ s.search_results := rfl

theorem reflectStep_loop_count (o : ModelOracle) (k : Nat) (s : OverallState) :
    (reflectStep o k s).research_loop_count = s.research_loop_count + 1 := by
  cases hr : o.reflect k <;> simp [reflectStep, reflection_node, hr, applyUpdate]

theorem reflectStep_citations (o : ModelOracle) (k : Nat) (s : OverallState) :
    (reflectStep o k s).citations = s.citations := by
  cases hr : o.reflect k <;> simp [reflectStep, reflection_node, hr, applyUpdate]

theorem reflectStep_records (o : ModelOracle) (k : Nat) (s : OverallState) :
    (reflectStep o k s).search_results = s.search_results := by
  cases hr : o.reflect k <;> simp [reflectStep, reflection_node, hr, applyUpdate]

theorem queryGenStep_loop_count (o : ModelOracle) (k : Nat) (s : OverallState) :
    (queryGenStep o k s).research_loop_count = s.research_loop_count := by
  cases hq : o.queryGen k <;> simp [queryGenStep, generate_queries_node, hq, applyUpdate]

theorem queryGenStep_citations (o : ModelOracle) (k : Nat) (s : OverallState) :
    (queryGenStep o k s).citations = s.citations := by
  cases hq : o.queryGen k <;> simp [queryGenStep, generate_queries_node, hq, applyUpdate]

theorem answerStep_loop_count (o : ModelOracle) (s : OverallState) :
    (answerStep o s).research_loop_count = s.research_loop_count := by
  cases ha : o.answer <;> simp [answerStep, answer_generation_node, ha, applyUpdate]

theorem answerStep_records (o : ModelOracle) (s : OverallState) :
    (answerStep o s).search_results = s.search_results := by
  cases ha : o.answer <;> simp [answerStep, answer_generation_node, ha, applyUpdate]

theorem decide_eq_answer_iff (s : OverallState) :
    decide_research_complete s = "answer_generation" ↔
      (s.is_sufficient = true ∨ maxResearchLoops ≤ s.research_loop_count ∨
        s.follow_up_queries = []) := by
  unfold decide_research_complete
  split
  · next hc =>
    simp only [true_iff]
    rcases hc with h | h | h
    · exact Or.inl h
    · exact Or.inr (Or.inl h)
    · exact Or.inr (Or.inr (List.length_eq_zero.mp h))
  · next hc =>
    constructor
    · intro h
      exact absurd h (by decide)
    · intro h
      exact absurd (by
        rcases h with h | h | h
        · exact Or.inl h
        · exact Or.inr (Or.inl h)
        · exact Or.inr (Or.inr (by simp [h]))) hc

theorem dedupCitations_fold_nodup (l : List String) :
    ∀ acc : List String, acc.Nodup →
      (l.foldl (fun acc c => if c ≠ "" ∧ c ∉ acc then acc ++ [c] else acc) acc).Nodup := by
  induction l with
  | nil => intro acc h; exact h
  | cons c t ih =>
    intro acc h
    rw [List.foldl_cons]
    by_cases hc : c ≠ "" ∧ c ∉ acc
    · rw [if_pos hc]
      refine ih _ ?_
      simp [List.nodup_append, h, hc.2]
    · rw [if_neg hc]
      exact ih acc h

theorem dedupCitations_fold_mem (l : List String) :
    ∀ (acc : List String) (a : String),
      a ∈ l.foldl (fun acc c => if c ≠ "" ∧ c ∉ acc then acc ++ [c] else acc) acc →
      a ∈ acc ∨ a ∈ l := by
  induction l with
  | nil => intro acc a h; exact Or.inl h
  | cons c t ih =>
    intro acc a h
    rw [List.foldl_cons] at h
    rcases ih _ a h with hstep | ht
    · by_cases hc : c ≠ "" ∧ c ∉ acc
      · rw [if_pos hc] at hstep
        rcases List.mem_append.mp hstep with ha | hc2
        · exact Or.inl ha
        · exact Or.inr (List.mem_cons.mpr (Or.inl (List.mem_singleton.mp hc2)))
      · rw [if_neg hc] at hstep
        exact Or.inl hstep
    · exact Or.inr (List.mem_cons.mpr (Or.inr ht))

theorem dedupCitations_nodup (l : List String) : (dedupCitations l).Nodup :=
  dedupCitations_fold_nodup l [] List.nodup_nil

theorem dedupCitations_subset (l : List String) (a : String)
    (h : a ∈ dedupCitations l) : a ∈ l := by
  rcases dedupCitations_fold_mem l [] a h with h0 | h1
  · exact absurd h0 (List.not_mem_nil a)
  · exact h1

theorem extractCitations_fold_mem (rs : List SearchResult) :
    ∀ (acc : List String) (a : String),
      a ∈ rs.foldl (fun acc r => if r.sources.isEmpty then acc else acc ++ r.sources) acc →
      a ∈ acc ∨ ∃ r ∈ rs, a ∈ r.sources := by
  induction rs with
  | nil => intro acc a h; exact Or.inl h
  | cons r t ih =>
    intro acc a h
    rw [List.foldl_cons] at h
    rcases ih _ a h with hstep | ht
    · by_cases hr : r.sources.isEmpty
      · rw [if_pos hr] at hstep
        exact Or.inl hstep
      · rw [if_neg hr] at hstep
        rcases List.mem_append.mp hstep with ha | hs
        · exact Or.inl ha
        · exact Or.inr ⟨r, List.mem_cons_self r t, hs⟩
    · rcases ht with ⟨r2, hr2, hs2⟩
      exact Or.inr ⟨r2, List.mem_cons_of_mem r hr2, hs2⟩

theorem extractCitations_mem (rs : List SearchResult) (a : String)
    (h : a ∈ extractCitations rs) : ∃ r ∈ rs, a ∈ r.sources := by
  rcases extractCitations_fold_mem rs [] a h with h0 | h1
  · exact absurd h0 (List.not_mem_nil a)
  · exact h1

theorem answerStep_citation_facts (o : ModelOracle) (s : OverallState)
    (h : s.citations = []) :
    (answerStep o s).citations.Nodup ∧
    ∀ url ∈ (answerStep o s).citations,
      ∃ r ∈ (answerStep o s).search_results, url ∈ r.sources := by
  have hrec : (answerStep o s).search_results = s.search_results := answerStep_records o s
  cases ha : o.answer with
  | failure e =>
    constructor
    · simp [answerStep, answer_generation_node, ha, applyUpdate, h]
    · intro url hurl
      simp [answerStep, answer_generation_node, ha, applyUpdate, h] at hurl
  | ok content =>
    have hcit : (answerStep o s).citations =
        dedupCitations (extractCitations s.search_results) := by
      simp [answerStep, answer_generation_node, ha, applyUpdate, h]
    constructor
    · rw [hcit]; exact dedupCitations_nodup _
    · intro url hurl
      rw [hcit] at hurl
      rw [hrec]
      exact extractCitations_mem _ _ (dedupCitations_subset _ _ hurl)

theorem runLoop_bound (n : Nat) :
    ∀ (o : ModelOracle) (k : Nat) (s : OverallState),
      maxResearchLoops - s.research_loop_count ≤ n →
      s.research_loop_count < maxResearchLoops →
      (runLoop o k s).1.research_loop_count ≤ maxResearchLoops ∧
      (runLoop o k s).2 ≤ maxResearchLoops - s.research_loop_count := by
  induction n with
  | zero => intro o k s hn hlt; omega
  | succ n ih =>
    intro o k s hn hlt
    have h3 : (reflectStep o k (aggStep (searchRound o k s))).research_loop_count =
        s.research_loop_count + 1 := by
      rw [reflectStep_loop_count, aggStep_loop_count, searchRound_loop_count]
    rw [runLoop]
    split
    · next hc =>
      constructor
      · rw [answerStep_loop_count, h3]; omega
      · simp only []
        omega
    · next hc =>
      have hcont : ¬ (maxResearchLoops ≤
          (reflectStep o k (aggStep (searchRound o k s))).research_loop_count) :=
        fun hle => hc ((decide_eq_answer_iff _).mpr (Or.inr (Or.inl hle)))
      rw [h3] at hcont
      have h4 : (queryGenStep o (k + 1)
          (reflectStep o k (aggStep (searchRound o k s)))).research_loop_count =
          s.research_loop_count + 1 := by
        rw [queryGenStep_loop_count, h3]
      have := ih o (k + 1)
        (queryGenStep o (k + 1) (reflectStep o k (aggStep (searchRound o k s))))
        (by rw [h4]; omega) (by rw [h4]; omega)
      constructor
      · exact this.1
      · rw [h4] at this
        show (runLoop o (k + 1)
          (queryGenStep o (k + 1) (reflectStep o k (aggStep (searchRound o k s))))).2 + 1 ≤
          maxResearchLoops - s.research_loop_count
        omega

theorem runLoop_citation_facts (n : Nat) :
    ∀ (o : ModelOracle) (k : Nat) (s : OverallState),
      maxResearchLoops - s.research_loop_count ≤ n →
      s.citations = [] →
      (runLoop o k s).1.citations.Nodup ∧
      ∀ url ∈ (runLoop o k s).1.citations,
        ∃ r ∈ (runLoop o k s).1.search_results, url ∈ r.sources := by
  induction n with
  | zero =>
    intro o k s hn hcit
    have h3 : (reflectStep o k (aggStep (searchRound o k s))).research_loop_count =
        s.research_loop_count + 1 := by
      rw [reflectStep_loop_count, aggStep_loop_count, searchRound_loop_count]
    have hc : decide_research_complete (reflectStep o k (aggStep (searchRound o k s))) =
        "answer_generation" :=
      (decide_eq_answer_iff _).mpr (Or.inr (Or.inl (by rw [h3]; omega)))
    rw [runLoop, dif_pos hc]
    exact answerStep_citation_facts o _ (by
      rw [reflectStep_citations, aggStep_citations, searchRound_citations, hcit])
  | succ n ih =>
    intro o k s hn hcit
    have h3cit : (reflectStep o k (aggStep (searchRound o k s))).citations = [] := by
      rw [reflectStep_citations, aggStep_citations, searchRound_citations, hcit]
    rw [runLoop]
    split
    · next hc =>
      exact answerStep_citation_facts o _ h3cit
    · next hc =>
      have h3 : (reflectStep o k (aggStep (searchRound o k s))).research_loop_count =
          s.research_loop_count + 1 := by
        rw [reflectStep_loop_count, aggStep_loop_count, searchRound_loop_count]
      have hcont : ¬ (maxResearchLoops ≤
          (reflectStep o k (aggStep (searchRound o k s))).research_loop_count) :=
        fun hle => hc ((decide_eq_answer_iff _).mpr (Or.inr (Or.inl hle)))
      rw [h3] at hcont
      have h4 : (queryGenStep o (k + 1)
          (reflectStep o k (aggStep (searchRound o k s)))).research_loop_count =
          s.research_loop_count + 1 := by
        rw [queryGenStep_loop_count, h3]
      exact ih o (k + 1)
        (queryGenStep o (k + 1) (reflectStep o k (aggStep (searchRound o k s))))
        (by rw [h4]; omega)
        (by rw [queryGenStep_citations, h3cit])

/-! ### Claim theorems -/

/-- C1: the loop-continuation decision after Reflect routes to Answer exactly
when `is_sufficient` holds OR the loop counter has reached
`max_research_loops` OR `follow_up_queries` is empty (OR semantics of the
three stop conditions), and consequently every run — for every possible
sequence of model outcomes, including one reporting insufficient forever —
terminates with `research_loop_count ≤ maxResearchLoops` after at most
`maxResearchLoops` reflection rounds.  (Termination in finitely many stage
transitions is witnessed by `runLoop` being a total function, whose
termination proof uses exactly this decision.) -/
theorem claim_c1_loop_decision_and_termination :
    ∀ (s : OverallState) (o : ModelOracle) (q : String),
      (decide_research_complete s = "answer_generation" ↔
        (s.is_sufficient = true ∨ maxResearchLoops ≤ s.research_loop_count ∨
          s.follow_up_queries = [])) ∧
      (runPipeline o q).1.research_loop_count ≤ maxResearchLoops ∧
      (runPipeline o q).2 ≤ maxResearchLoops := by
  intro s o q
  have hloop : (queryGenStep o 0 (initialState q)).research_loop_count = 0 := by
    rw [queryGenStep_loop_count]
    rfl
  have hb := runLoop_bound maxResearchLoops o 0 (queryGenStep o 0 (initialState q))
    (Nat.sub_le _ _) (by rw [hloop]; decide)
  exact ⟨decide_eq_answer_iff s, hb.1, le_trans hb.2 (Nat.sub_le _ _)⟩

/-- C2: the fan-in part of the claim holds — every dispatched query
contributes exactly one Evidence Record, so when Aggregate starts, exactly N
new records are present for a batch of N.  But the claim as stated is false:
`aggregate_search_results` returns the full accumulated record list through
the `add`-reduced `search_results` channel, so running the Aggregate stage
appends a second copy of every record.  Concretely, after a first round with
exactly one dispatched query the state holds 2 records, not 1. -/
theorem claim_c2_fan_in_exact_and_aggregate_duplicates :
    (∀ (o : ModelOracle) (k : Nat) (s : OverallState),
      (searchRound o k s).search_results.length =
        s.search_results.length + (routeToParallelSearches s).length) ∧
    ((routeToParallelSearches { initialState "Q" with query_list := ["q1"] }).length = 1 ∧
     ({ initialState "Q" with query_list := ["q1"] } :
        OverallState).search_results.length = 0 ∧
     (searchRound allFailOracle 0
        { initialState "Q" with query_list := ["q1"] }).search_results.length = 1 ∧
     (aggStep (searchRound allFailOracle 0
        { initialState "Q" with query_list := ["q1"] })).search_results.length = 2) := by
  refine ⟨searchRound_records, ?_, rfl, ?_, ?_⟩ <;> decide

/-- C3 counterexample: at a concrete unparseable Reflect response the node
appends no entry to `errors` — the claim's "appends exactly one entry to
errors" fails (only the sufficiency default and the direct route to Answer
hold). -/
theorem claim_c3_counterexample :
    (reflection_node (initialState "Q") ReflectModelResult.unparseable).errors = [] ∧
    (applyUpdate (initialState "Q")
      (reflection_node (initialState "Q") ReflectModelResult.unparseable)).errors.length =
      (initialState "Q").errors.length ∧
    ¬ ((applyUpdate (initialState "Q")
      (reflection_node (initialState "Q") ReflectModelResult.unparseable)).errors.length =
      (initialState "Q").errors.length + 1) := by
  refine ⟨rfl, rfl, ?_⟩
  decide

/-- C3 (amended): for every Reflect invocation whose model response is
unparseable, the stage sets `is_sufficient` to `true` and returns empty
`follow_up_queries`, so the run proceeds directly to Answer; no entry is
appended to `errors` on this path (an `errors` entry is appended only when
the reflection stage itself raises). -/
theorem claim_c3_unparseable_reflect_amended (s : OverallState) :
    (reflection_node s ReflectModelResult.unparseable).is_sufficient = some true ∧
    (reflection_node s ReflectModelResult.unparseable).follow_up_queries = some [] ∧
    (reflection_node s ReflectModelResult.unparseable).current_phase =
      some "generating_answer" ∧
    (reflection_node s ReflectModelResult.unparseable).errors = [] ∧
    decide_research_complete
      (applyUpdate s (reflection_node s ReflectModelResult.unparseable)) =
      "answer_generation" := by
  refine ⟨rfl, rfl, rfl, rfl, ?_⟩
  exact (decide_eq_answer_iff _).mpr (Or.inl rfl)

/-- C4: every Search invocation returns exactly one Evidence Record (the node
is a total function — no exception crosses its boundary), and on failure the
record carries relevance score 0.0, an empty source list and the error text
as summary, with exactly one entry appended to `errors`. -/
theorem claim_c4_search_error_contract (ws : WebSearchState) (out : SearchOutcome)
    (e : String) :
    (web_search_node ws out).search_results.length = 1 ∧
    (web_search_node ws (SearchOutcome.error e)).search_results.map
      (fun r => (r.relevance_score, r.sources, r.summary)) = [((0 : Rat), [], e)] ∧
    (web_search_node ws (SearchOutcome.error e)).sources_gathered = [] ∧
    (web_search_node ws (SearchOutcome.error e)).errors = ["Web search failed: " ++ e] :=
  ⟨web_search_node_one_record ws out, rfl, rfl, rfl⟩

/-- C5 counterexample: at a concrete unparseable QueryGen response the
fallback queries are `"<q> research"`, `"<q> analysis"`, `"<q> facts"` — not
`"<q> overview"` as claimed — and no entry is appended to `errors` on this
path. -/
theorem claim_c5_counterexample :
    (generate_queries_node (initialState "Q") QueryGenModelResult.unparseable).query_list =
      some ["Q research", "Q analysis", "Q facts"] ∧
    ["Q research", "Q analysis", "Q facts"] ≠
      ["Q research", "Q analysis", "Q overview"] ∧
    (generate_queries_node (initialState "Q") QueryGenModelResult.unparseable).errors =
      [] := by
  refine ⟨rfl, ?_, rfl⟩
  decide

/-- C5 (amended): QueryGen never fails the run (the node is total).  On
unparseable model output it falls back deterministically to the three
templated queries `"<question> research"`, `"<question> analysis"`,
`"<question> facts"` and appends nothing to `errors`; when the model call
itself raises, the fallback is the single original question and the failure
is appended to `errors`. -/
theorem claim_c5_querygen_fallback_amended (s : OverallState) (e : String) :
    (generate_queries_node s QueryGenModelResult.unparseable).query_list =
      some [extractQuestion s ++ " research", extractQuestion s ++ " analysis",
        extractQuestion s ++ " facts"] ∧
    (generate_queries_node s QueryGenModelResult.unparseable).errors = [] ∧
    (generate_queries_node s (QueryGenModelResult.failure e)).query_list =
      some [extractQuestion s] ∧
    (generate_queries_node s (QueryGenModelResult.failure e)).errors =
      ["Query generation failed: " ++ e] :=
  ⟨rfl, rfl, rfl, rfl⟩

/-- C6: the claim fails on the code.  Starting from an already-deduplicated
`sources_gathered = ["u"]`, one application of the Aggregate stage yields
`["u", "u"]` (the node's deduplicated output is *appended* by the `add`
reducer of `state.py:30`, so the stored collection is not deduplicated and
re-running Aggregate is not a no-op), and a second application yields
`["u", "u", "u"]` ≠ `["u", "u"]`. -/
theorem claim_c6_aggregate_not_idempotent :
    (aggStep { initialState "Q" with sources_gathered := ["u"] }).sources_gathered =
      ["u", "u"] ∧
    ¬ (aggStep { initialState "Q" with
        sources_gathered := ["u"] }).sources_gathered.Nodup ∧
    (aggStep (aggStep { initialState "Q" with
        sources_gathered := ["u"] })).sources_gathered = ["u", "u", "u"] ∧
    (aggStep (aggStep { initialState "Q" with
        sources_gathered := ["u"] })).sources_gathered ≠
      (aggStep { initialState "Q" with sources_gathered := ["u"] }).sources_gathered := by
  refine ⟨?_, ?_, ?_, ?_⟩ <;> decide

/-- C7: in every run, the final `citations` list contains no duplicates (each
URL appears at most once, first-seen order kept by the dedup loop of
`nodes.py:402-407`), and every cited URL occurs in some Evidence Record's
source list — a URL in no record never appears. -/
theorem claim_c7_citations_round_trip (o : ModelOracle) (q : String) (url : String)
    (h : url ∈ (runPipeline o q).1.citations) :
    (runPipeline o q).1.citations.Nodup ∧
    ∃ r ∈ (runPipeline o q).1.search_results, url ∈ r.sources := by
  have hfacts := runLoop_citation_facts maxResearchLoops o 0
    (queryGenStep o 0 (initialState q))
    (Nat.sub_le _ _) (by rw [queryGenStep_citations]; rfl)
  exact ⟨hfacts.1, hfacts.2 url h⟩

/-- C7 witness: a concrete successful run whose citation list contains the
discovered URL exactly once, backed by a record carrying it. -/
theorem claim_c7_witness :
    ("https://example.com/a" ∈ (runPipeline okOracle "Q").1.citations) ∧
    ((runPipeline okOracle "Q").1.citations.Nodup ∧
     ∃ r ∈ (runPipeline okOracle "Q").1.search_results,
       "https://example.com/a" ∈ r.sources) :=
  ⟨by unfold runPipeline runLoop; decide,
   claim_c7_citations_round_trip okOracle "Q" "https://example.com/a"
     (by unfold runPipeline runLoop; decide)⟩

/-- C8: the claim fails on the code.  With no credentials and demo mode
disabled the configuration is invalid (`validate` returns `false`), yet the
non-streaming research endpoint never consults `validate`: the pipeline runs
(one reflection round executes, every stage appends its degradation error)
and the caller receives a top-level `success = true` result — not a hard
failure before the pipeline starts.  The repository's own test suite
(`test_workflow.py`) expects a `success: false` "Missing required API keys"
result in this situation. -/
theorem claim_c8_no_preflight_validation :
    ResearchAgentConfig.validate defaultConfig = false ∧
    apiSuccess (research_endpoint allFailOracle "What is X?") = some true ∧
    (runPipeline allFailOracle "What is X?").1.research_loop_count = 1 ∧
    (runPipeline allFailOracle "What is X?").1.errors =
      ["Query generation failed: model unavailable",
       "Web search failed: model unavailable",
       "Reflection failed: model unavailable",
       "Answer generation failed: model unavailable"] := by
  refine ⟨by decide, ?_, ?_, ?_⟩
  · unfold research_endpoint apiSuccess runPipeline runLoop
    decide
  · unfold runPipeline runLoop
    decide
  · unfold runPipeline runLoop
    decide

/-- C9: the claim fails on the code.  `config.demo_mode` is read nowhere in
`workflow.py`/`nodes.py` — no node takes a demo-mode input (the `ModelOracle`
parameter of the embedded pipeline is the only model dependency) — so a
demo-mode run does not bypass the language model and receives no canned
answer.  In the credential-less environment demo mode is meant for, every
model call raises; the run then produces 1 fallback query (not 3), ends in
`current_phase = "error"` (not `"completed"`), and the final answer is the
apology string, contradicting the claimed demo scenario. -/
theorem claim_c9_demo_scenario_not_implemented :
    initialQueriesCount = 3 ∧
    (runPipeline allFailOracle "What is the impact of X?").1.query_list =
      ["What is the impact of X?"] ∧
    (runPipeline allFailOracle "What is the impact of X?").1.query_list.length ≠ 3 ∧
    (runPipeline allFailOracle "What is the impact of X?").1.current_phase = "error" ∧
    (runPipeline allFailOracle "What is the impact of X?").1.current_phase ≠
      "completed" ∧
    (runPipeline allFailOracle "What is the impact of X?").1.final_answer =
      "I apologize, but I encountered an error while generating the final answer: model unavailable" := by
  refine ⟨rfl, ?_, ?_, ?_, ?_, ?_⟩ <;>
    (unfold runPipeline runLoop; decide)

/-- C10: a Reflect model response that parses to a JSON object lacking the
`is_sufficient` key is treated as sufficient (`parsed.get("is_sufficient",
True)`), with empty knowledge gap and follow-up queries when those keys are
also absent, and the continuation decision routes the run to answer
generation — sufficient-by-default is not limited to unparseable output. -/
theorem claim_c10_missing_key_defaults_sufficient (s : OverallState)
    (fields : List (String × JsonVal))
    (h1 : lookupField fields "is_sufficient" = none)
    (h2 : lookupField fields "knowledge_gaps" = none)
    (h3 : lookupField fields "knowledge_gap" = none)
    (h4 : lookupField fields "follow_up_queries" = none) :
    (reflection_node s (ReflectModelResult.parsed fields)).is_sufficient = some true ∧
    (reflection_node s (ReflectModelResult.parsed fields)).knowledge_gap = some "" ∧
    (reflection_node s (ReflectModelResult.parsed fields)).follow_up_queries =
      some [] ∧
    (reflection_node s (ReflectModelResult.parsed fields)).current_phase =
      some "generating_answer" ∧
    decide_research_complete
      (applyUpdate s (reflection_node s (ReflectModelResult.parsed fields))) =
      "answer_generation" := by
  have hsuff : (reflection_node s (ReflectModelResult.parsed fields)).is_sufficient =
      some true := by
    simp [reflection_node, h1]
  refine ⟨hsuff, ?_, ?_, ?_, ?_⟩
  · simp [reflection_node, h2, h3]
  · simp [reflection_node, h4]
  · simp [reflection_node, h1]
  · refine (decide_eq_answer_iff _).mpr (Or.inl ?_)
    simp [applyUpdate, hsuff]

/-- C10 witness: a concrete parsed object with none of the reflection keys
takes the sufficient-by-default path and routes to answer generation. -/
theorem claim_c10_witness :
    (lookupField [("foo", JsonVal.str "bar")] "is_sufficient" = none ∧
     lookupField [("foo", JsonVal.str "bar")] "knowledge_gaps" = none ∧
     lookupField [("foo", JsonVal.str "bar")] "knowledge_gap" = none ∧
     lookupField [("foo", JsonVal.str "bar")] "follow_up_queries" = none) ∧
    ((reflection_node (initialState "Q")
        (ReflectModelResult.parsed [("foo", JsonVal.str "bar")])).is_sufficient =
      some true ∧
     (reflection_node (initialState "Q")
        (ReflectModelResult.parsed [("foo", JsonVal.str "bar")])).knowledge_gap =
      some "" ∧
     (reflection_node (initialState "Q")
        (ReflectModelResult.parsed [("foo", JsonVal.str "bar")])).follow_up_queries =
      some [] ∧
     (reflection_node (initialState "Q")
        (ReflectModelResult.parsed [("foo", JsonVal.str "bar")])).current_phase =
      some "generating_answer" ∧
     decide_research_complete
       (applyUpdate (initialState "Q")
         (reflection_node (initialState "Q")
           (ReflectModelResult.parsed [("foo", JsonVal.str "bar")]))) =
       "answer_generation") :=
  ⟨⟨rfl, rfl, rfl, rfl⟩,
   claim_c10_missing_key_defaults_sufficient (initialState "Q")
     [("foo", JsonVal.str "bar")] rfl rfl rfl rfl⟩
